import Mathlib

/-
Verification development for the constrained 3D path-search core of the
algorithmic-lattice-surgery repository.

The Python sources are shallowly embedded:
* coordinates  -> triples of integers,
* kinds        -> lists of characters (Python strings),
* dictionaries -> functions into `Option`,
* exceptions   -> an explicit `Halt` error type threaded via `Except`,
* the unbounded `while queue:` loop -> structural recursion on a fuel
  parameter (`Halt.outOfFuel` is an artefact of the embedding, not a
  Python behaviour).

Files embedded: `src/utils/constraints.py` and `src/scripts/pathfinder.py`.
Helpers imported by those files from modules that are not part of the
sources at hand (`utils.utils.check_is_exit`,
`utils.utils_greedy_bfs.rotate_o_types`,
`utils.utils_greedy_bfs.adjust_hadamards_direction`,
`utils.utils_greedy_bfs.is_move_allowed`) are modelled from the
specification; each such definition carries a doc comment that starts
with `Modelled from the spec:`.
-/

/-- An integer triple (x, y, z), the coordinate of a block. -/
abbrev Coord : Type := ℤ × ℤ × ℤ

/-- A block kind: a Python string over the alphabet x, z, o, h,
embedded as a list of characters. -/
abbrev Kind : Type := List Char

/-- Conversion from a string literal to a `Kind`. -/
def kd (s : String) : Kind := s.toList

/-- A block: a coordinate together with a kind (`StandardBlock`). -/
abbrev Block : Type := Coord × Kind

/-- Abnormal termination of an embedded computation.
`typeError` and `keyError` model the Python exceptions of the same
names; `outOfFuel` signals exhaustion of the embedding's termination
fuel and does not correspond to any Python behaviour. -/
inductive Halt : Type where
  | typeError : Halt
  | keyError : Halt
  | outOfFuel : Halt
deriving DecidableEq, Repr

/-- The value returned by `bfs_extended_3d`:
(path found?, path length or -1, path or None). -/
abbrev BfsResult : Type := Bool × ℤ × Option (List Block)

/-- Decidable equality of the second and third result components,
spelled out because instance search fails to assemble it unaided. -/
instance : DecidableEq (ℤ × Option (List Block)) := instDecidableEqProd

/-- Decidable equality of `BfsResult` values. -/
instance : DecidableEq BfsResult := instDecidableEqProd

/-- Decidable equality of `Except` values, used to evaluate the
embedded computations at concrete inputs. -/
instance {ε α : Type} [DecidableEq ε] [DecidableEq α] :
    DecidableEq (Except ε α) := fun x y =>
  match x, y with
  | Except.error a, Except.error b =>
      if h : a = b then isTrue (by rw [h])
      else isFalse (by intro hc; injection hc; exact h (by assumption))
  | Except.ok a, Except.ok b =>
      if h : a = b then isTrue (by rw [h])
      else isFalse (by intro hc; injection hc; exact h (by assumption))
  | Except.error _, Except.ok _ => isFalse (fun hc => Except.noConfusion hc)
  | Except.ok _, Except.error _ => isFalse (fun hc => Except.noConfusion hc)

/-- The first axis on which the two coordinates differ, computed from
the componentwise displacements `p[1] - p[0]` exactly as
`check_face_match` does (constraints.py:25-28); `none` models the
`ValueError` that `list.index` raises when no axis differs. -/
def axisIdx (s t : Coord) : Option ℕ :=
  if t.1 - s.1 ≠ 0 then some 0
  else if t.2.1 - s.2.1 ≠ 0 then some 1
  else if t.2.2 - s.2.2 ≠ 0 then some 2
  else none

/-- Face-match check (constraints.py:3-38): lower-case both kinds,
truncate to three characters, drop the character on the displacement
axis and compare the remaining two-character strings. `none` models
the `ValueError` raised when the coordinates do not differ on any
axis. -/
def check_face_match (source_coord : Coord) (source_kind : Kind)
    (target_coord : Coord) (target_kind : Kind) : Option Bool :=
  let sk := (source_kind.map Char.toLower).take 3
  let tk := (target_kind.map Char.toLower).take 3
  match axisIdx source_coord target_coord with
  | none => none
  | some idx =>
      let new_source_kind := sk.take idx ++ sk.drop (idx + 1)
      let new_target_kind := tk.take idx ++ tk.drop (idx + 1)
      some (decide (new_source_kind = new_target_kind))

/-- Modelled from the spec: `check_is_exit` is imported from
`utils.utils`, a module that is not part of the sources at hand.
Spec §4.4 ("Exit match"): each side must expose a valid open face
toward the other; a pipe (kind containing the open marker `o`)
exposes an exit only along its open axis, while every face of a cube
is a candidate exit, colour agreement being delegated to the
face-match check.  `none` models the failure raised when the two
coordinates do not differ on any axis, as the displacement axis is
then undefined. -/
def check_is_exit (pos : Coord) (kind : Kind) (next_pos : Coord) : Option Bool :=
  match axisIdx pos next_pos with
  | none => none
  | some idx =>
      if kind.contains 'o' then some (kind.getD idx ' ' == 'o')
      else some true

/-- Cube-to-neighbour exit compatibility (constraints.py:40-72):
lower-case both kinds, then require a valid exit from the current
block toward the next one and from the next block toward the current
one. -/
def check_cube_match (current_pos : Coord) (current_kind : Kind)
    (next_pos : Coord) (next_kind : Kind) : Option Bool :=
  let ck := current_kind.map Char.toLower
  let nk := next_kind.map Char.toLower
  match check_is_exit current_pos ck next_pos with
  | none => none
  | some false => some false
  | some true =>
      match check_is_exit next_pos nk current_pos with
      | none => none
      | some false => some false
      | some true => some true

/-- The fixed family of cube kinds (constraints.py:79). -/
def all_cube_kinds : List Kind :=
  [kd "xxz", kd "xzz", kd "xzx", kd "zzx", kd "zxx", kd "zxz"]

/-- The fixed family of pipe kinds, plain and Hadamard variants
(constraints.py:80-93). -/
def all_pipe_kinds : List Kind :=
  [kd "zxo", kd "xzo", kd "oxz", kd "ozx", kd "xoz", kd "zox",
   kd "zxoh", kd "xzoh", kd "oxzh", kd "ozxh", kd "xozh", kd "zoxh"]

/-- The type-compatibility oracle (constraints.py:75-122): if the
current kind contains the open marker the candidate next kinds are
the cube kinds, otherwise the pipe kinds; the family is first
filtered by the exit-match check (`check_cube_match`) and the result
filtered again by the face-match check.  `none` models the
`ValueError` raised by the first compatibility check when the two
coordinates do not differ on any axis; under the `some` branch the
inner checks always return `some`, so the `getD false` defaults are
never taken. -/
def get_valid_next_kinds (current_pos : Coord) (current_kind : Kind)
    (next_pos : Coord) : Option (List Kind) :=
  match axisIdx current_pos next_pos with
  | none => none
  | some _ =>
      let family :=
        if current_kind.contains 'o' then all_cube_kinds else all_pipe_kinds
      let possible_kinds :=
        family.filter (fun next_kind =>
          (check_cube_match current_pos current_kind next_pos next_kind).getD false)
      let reduced_possible_kinds :=
        possible_kinds.filter (fun next_kind =>
          (check_face_match current_pos current_kind next_pos next_kind).getD false)
      some reduced_possible_kinds

/-- Modelled from the spec: `rotate_o_types` is imported from
`utils.utils_greedy_bfs`, a module that is not part of the sources at
hand.  Spec §4.4 describes it as "a rotation of the open-axis
position"; it is modelled as a cyclic rotation of the first three
characters of the kind, the Hadamard suffix (if any) staying in
place.  No claim settled in this file depends on the exact choice. -/
def rotate_o_types (kind : Kind) : Kind :=
  match kind with
  | a :: b :: c :: rest => c :: a :: b :: rest
  | other => other

/-- Modelled from the spec: `adjust_hadamards_direction` is imported
from `utils.utils_greedy_bfs`, a module that is not part of the
sources at hand.  Spec §4.4 describes its effect as "an
axis-direction flip"; it is modelled as reversing the order of the
first three characters of the kind, the Hadamard suffix (if any)
staying in place.  No claim settled in this file depends on the exact
choice. -/
def adjust_hadamards_direction (kind : Kind) : Kind :=
  match kind with
  | a :: b :: c :: rest => c :: b :: a :: rest
  | other => other

/-- Modelled from the spec: `is_move_allowed` is imported from
`utils.utils_greedy_bfs`, a module that is not part of the sources at
hand.  Spec §4.2 describes it only as "an external geometric check on
axis alignment ... a simple orientation filter"; it is modelled as
requiring an axis-aligned displacement (the two coordinates differ on
exactly one axis).  No claim settled in this file depends on the
exact choice. -/
def is_move_allowed (source : Coord) (target : Coord) : Bool :=
  (if source.1 = target.1 then 0 else 1) +
      (if source.2.1 = target.2.1 then 0 else 1) +
      (if source.2.2 = target.2.2 then 0 else 1) = (1 : ℕ)

/-- Manhattan distance between two coordinates, as computed at
pathfinder.py:180-182 and pathfinder.py:189. -/
def manhattan (a b : Coord) : ℤ :=
  |a.1 - b.1| + |a.2.1 - b.2.1| + |a.2.2 - b.2.2|

/-- The signed displacement accumulator
`sum(p[0] + p[1] if p[0] != p[1] else 0 for p in zip(a, b))`
of pathfinder.py:236-242 and pathfinder.py:262-268. -/
def accumSigned (a b : Coord) : ℤ :=
  (if a.1 ≠ b.1 then a.1 + b.1 else 0) +
    (if a.2.1 ≠ b.2.1 then a.2.1 + b.2.1 else 0) +
    (if a.2.2 ≠ b.2.2 then a.2.2 + b.2.2 else 0)

/-- The six axis-aligned unit directions (pathfinder.py:206-213). -/
def spatial_moves : List (ℤ × ℤ × ℤ) :=
  [(1, 0, 0), (-1, 0, 0), (0, 1, 0), (0, -1, 0), (0, 0, 1), (0, 0, -1)]

/-- Models the call
`get_valid_next_kinds(current_coords, current_type, next_coords, hadamard_flag=hadamard_flag)`
at pathfinder.py:252-254.  The callee
`get_valid_next_kinds(current_pos, current_kind, next_pos)`
(constraints.py:75) accepts no `hadamard_flag` parameter, so in
Python the call itself raises
`TypeError: get_valid_next_kinds() got an unexpected keyword argument`
before the oracle body runs. -/
def call_get_valid_next_kinds_with_flag (current_coords : Coord)
    (current_type : Kind) (next_coords : Coord) (hadamard_flag : Bool) :
    Except Halt (List Kind) :=
  Except.error Halt.typeError

/-- The mutable state of the search loop of `bfs_extended_3d`:
the queue, the three dictionaries keyed by (coordinate, kind) pairs,
and the function-local `hadamard_flag` variable, which the loop
overwrites (pathfinder.py:234). -/
structure BfsSt : Type where
  queue : List Block
  visited : Block → Option ℤ
  plen : Block → Option ℤ
  pmap : Block → Option (List Block)
  hf : Bool

/-- The body of the inner `for next_type in possible_next_types:` loop
(pathfinder.py:256-289): optional Hadamard re-tagging and secondary
rotation of a pipe candidate, the acceptance test against the current
path, the obstacle list and the intermediate cell, and the
visited/length/back-pointer updates with enqueueing. -/
def add_candidates (cc nc : Coord) (interm : Option Coord)
    (curPathCoords : List Coord) (curPath : List Block)
    (forb : List Coord) (cur : Block) :
    List Kind → Bool → BfsSt → Except Halt BfsSt
  | [], _, st => Except.ok st
  | next_kind :: rest, hflag, st =>
      let nk :=
        if hflag && next_kind.contains 'o' then
          let nkh := next_kind ++ ['h']
          if accumSigned cc nc < 0 then rotate_o_types nkh else nkh
        else next_kind
      let next_node_info : Block := (nc, nk)
      if nc ∉ curPathCoords ∧ nc ∉ forb ∧ interm ≠ some nc then
        match st.plen cur with
        | none => Except.error Halt.keyError
        | some curLen =>
            let newLen := curLen + 1
            let doUpdate : Bool :=
              match st.visited next_node_info with
              | none => true
              | some v => decide (newLen < v)
            if doUpdate then
              add_candidates cc nc interm curPathCoords curPath forb cur rest hflag
                { st with
                  visited := fun b =>
                    if b = next_node_info then some newLen else st.visited b,
                  queue := st.queue ++ [next_node_info],
                  plen := fun b =>
                    if b = next_node_info then some newLen else st.plen b,
                  pmap := fun b =>
                    if b = next_node_info then some (curPath ++ [next_node_info])
                    else st.pmap b }
            else add_candidates cc nc interm curPathCoords curPath forb cur rest hflag st
      else add_candidates cc nc interm curPathCoords curPath forb cur rest hflag st

/-- The body of the `for dx, dy, dz in spatial_moves:` loop
(pathfinder.py:215-289) for one dequeued state: scaled neighbour
coordinate, intermediate-cell skip for pipe expansions, the Hadamard
reorientation of the current kind (which also overwrites the shared
`hadamard_flag`), the oracle call, and the candidate processing.  The
current kind is threaded through the iterations because the Hadamard
branch rebinds the loop-local `current_type`. -/
def bfs_expand (src cur : Block) (curPath : List Block) (scale : ℤ)
    (forb : List Coord) :
    List (ℤ × ℤ × ℤ) → Kind → BfsSt → Except Halt BfsSt
  | [], _, st => Except.ok st
  | (dx, dy, dz) :: moves, current_type, st =>
      let cc := cur.1
      let next_coords : Coord :=
        (cc.1 + dx * scale, cc.2.1 + dy * scale, cc.2.2 + dz * scale)
      let curPathCoords := curPath.map Prod.fst
      let interm : Option Coord :=
        if current_type.contains 'o' ∧ scale = 2 then
          some (cc.1 + dx, cc.2.1 + dy, cc.2.2 + dz)
        else none
      let blocked : Bool :=
        match interm with
        | some ip => decide (ip ∈ curPathCoords ∨ ip ∈ forb)
        | none => false
      if blocked then bfs_expand src cur curPath scale forb moves current_type st
      else
        let ct2 :=
          if current_type.contains 'h' then
            if accumSigned src.1 cc < 0 then
              (rotate_o_types (adjust_hadamards_direction current_type)).take 3
            else (rotate_o_types current_type).take 3
          else current_type
        let hf2 := if current_type.contains 'h' then false else st.hf
        match call_get_valid_next_kinds_with_flag cc ct2 next_coords hf2 with
        | Except.error e => Except.error e
        | Except.ok possible_next_types =>
            match add_candidates cc next_coords interm curPathCoords curPath forb cur
                possible_next_types hf2 { st with hf := hf2 } with
            | Except.error e => Except.error e
            | Except.ok st2 => bfs_expand src cur curPath scale forb moves ct2 st2

/-- The `while queue:` loop of `bfs_extended_3d`
(pathfinder.py:184-291): dequeue, global Manhattan-distance abort,
goal test, and expansion along the six spatial moves. -/
def bfs_loop (src : Block) (endC : Coord) (endT : Kind)
    (forb : List Coord) (initMd : ℤ) :
    ℕ → BfsSt → Except Halt BfsResult
  | 0, _ => Except.error Halt.outOfFuel
  | fuel + 1, st =>
      match st.queue with
      | [] => Except.ok (false, -1, none)
      | cur :: rest =>
          if manhattan cur.1 endC > 6 * initMd then Except.ok (false, -1, none)
          else if cur.1 = endC ∧ (endT = kd "ooo" ∨ cur.2 = endT) then
            match st.plen cur, st.pmap cur with
            | some l, some p => Except.ok (true, l, some p)
            | _, _ => Except.error Halt.keyError
          else
            match st.pmap cur with
            | none => Except.error Halt.keyError
            | some curPath =>
                let scale : ℤ := if cur.2.contains 'o' then 2 else 1
                match bfs_expand src cur curPath scale forb spatial_moves cur.2
                    { st with queue := rest } with
                | Except.error e => Except.error e
                | Except.ok st2 => bfs_loop src endC endT forb initMd fuel st2

/-- The core pathfinder `bfs_extended_3d` (pathfinder.py:140-291).
The first component is the returned triple (or the exception raised);
the second component is the final value of the caller-supplied
obstacle list, from which the first occurrences of the source and
target coordinates are removed before the search starts
(pathfinder.py:168-171) — in Python this mutation is visible to the
caller after the call returns. -/
def bfs_extended_3d (source_node target_node : Block)
    (forbidden_cords : List Coord) (hadamard_flag : Bool) (fuel : ℕ) :
    Except Halt BfsResult × List Coord :=
  let start_coords := source_node.1
  let end_coords := target_node.1
  let forb := (forbidden_cords.erase start_coords).erase end_coords
  let initMd := manhattan start_coords end_coords
  let st0 : BfsSt :=
    { queue := [source_node]
      visited := fun b => if b = source_node then some 0 else none
      plen := fun b => if b = source_node then some 0 else none
      pmap := fun b => if b = source_node then some [source_node] else none
      hf := hadamard_flag }
  (bfs_loop source_node end_coords target_node.2 forb initMd fuel st0, forb)

/-- The bounding box of the search space (pathfinder.py:397-427).
The folds are seeded with the first element of the coordinate list,
which gives the same value as Python's `min`/`max` over the whole
non-empty list. -/
def determine_grid_size (start_coords end_coords : Coord)
    (obstacle_coords : List Coord) (margin : ℤ) :
    ℤ × ℤ × ℤ × ℤ × ℤ × ℤ :=
  let all_coords := start_coords :: end_coords :: obstacle_coords
  let xs := all_coords.map (fun c => c.1)
  let ys := all_coords.map (fun c => c.2.1)
  let zs := all_coords.map (fun c => c.2.2)
  (xs.foldl min start_coords.1 - margin, xs.foldl max start_coords.1 + margin,
   ys.foldl min start_coords.2.1 - margin, ys.foldl max start_coords.2.1 + margin,
   zs.foldl min start_coords.2.2 - margin, zs.foldl max start_coords.2.2 + margin)

/-- Models `list(set(...))` at pathfinder.py:364: duplicate removal.
CPython's resulting iteration order is implementation-defined; it is
modelled as keeping the first occurrence of each coordinate.  The
spec notes (§4.2) that within a tier the order is
implementation-defined, and no claim settled in this file depends on
it. -/
def pySetList (l : List Coord) : List Coord :=
  l.foldl (fun acc c => if c ∈ acc then acc else acc ++ [c]) []

/-- The candidate filter applied to every tentative target position
(pathfinder.py:339-342): inside the bounding box, not an obstacle,
and allowed by the move-legality predicate. -/
def target_candidate_ok (min_x max_x min_y max_y min_z max_z : ℤ)
    (obstacle_coords : List Coord) (source_coords : Coord) (t : Coord) : Bool :=
  decide (min_x ≤ t.1 ∧ t.1 ≤ max_x ∧ min_y ≤ t.2.1 ∧ t.2.1 ≤ max_y ∧
      min_z ≤ t.2.2 ∧ t.2.2 ≤ max_z) &&
    decide (t ∉ obstacle_coords) && is_move_allowed source_coords t

/-- The tentative-target-position generator (pathfinder.py:297-394):
an override coordinate is returned unconditionally (a 3-tuple is
always truthy in Python); otherwise the three displacement tiers are
scanned in order and the first candidate passing the validity checks
is returned. -/
def generate_tentative_target_position (source_node : Block)
    (min_x max_x min_y max_y min_z max_z : ℤ)
    (obstacle_coords : List Coord)
    (overwrite_target_coords : Option Coord) : Option Coord :=
  match overwrite_target_coords with
  | some c => some c
  | none =>
      let sx := source_node.1.1
      let sy := source_node.1.2.1
      let sz := source_node.1.2.2
      let ok := target_candidate_ok min_x max_x min_y max_y min_z max_z
        obstacle_coords source_node.1
      let level1 : List Coord :=
        [(sx + 3, sy, sz), (sx - 3, sy, sz), (sx, sy + 3, sz),
         (sx, sy - 3, sz), (sx, sy, sz + 3), (sx, sy, sz - 3)]
      let deltas : List ℤ := [-3, 3]
      let level2_raw : List Coord :=
        deltas.flatMap (fun dx =>
          (deltas.flatMap fun dy => [(sx + dx, sy + dy, sz), (sx + dy, sy + dx, sz)]) ++
          (deltas.flatMap fun dz => [(sx + dx, sy, sz + dz), (sx + dz, sy, sz + dx)]) ++
          (deltas.flatMap fun dy => deltas.flatMap fun dz =>
            [(sx, sy + dy, sz + dz), (sx, sy + dz, sz + dy)]))
      let level3 : List Coord :=
        deltas.flatMap fun dx => deltas.flatMap fun dy => deltas.flatMap fun dz =>
          if dx ≠ 0 ∨ dy ≠ 0 ∨ dz ≠ 0 then [(sx + dx, sy + dy, sz + dz)] else []
      match level1.find? ok with
      | some t => some t
      | none =>
          match (pySetList level2_raw).find? ok with
          | some t => some t
          | none => level3.find? ok

/-- The target-kind enumerator (pathfinder.py:430-468).  The override
check is Python truthiness: `None` and the empty string both fall
through to the ZX-type families. -/
def generate_tentative_target_types (target_node_zx_type : Kind)
    (overwrite_target_type : Option Kind) : List Kind :=
  let truthy : Bool :=
    match overwrite_target_type with
    | some k => !k.isEmpty
    | none => false
  if truthy then [overwrite_target_type.getD []]
  else
    let X := [kd "xxz", kd "xzx", kd "zxx"]
    let Z := [kd "xzz", kd "zzx", kd "zxz"]
    let BOUNDARY := [kd "ooo"]
    let SIMPLE := [kd "zxo", kd "xzo", kd "oxz", kd "ozx", kd "xoz", kd "zox"]
    let HADAMARD := [kd "zxoh", kd "xzoh", kd "oxzh", kd "ozxh", kd "xozh", kd "zoxh"]
    if target_node_zx_type = kd "X" ∨ target_node_zx_type = kd "Z" then
      if target_node_zx_type = kd "X" then X else Z
    else if target_node_zx_type = kd "O" then BOUNDARY
    else if target_node_zx_type = kd "SIMPLE" then SIMPLE
    else if target_node_zx_type = kd "HADAMARD" then HADAMARD
    else [target_node_zx_type]

/-- The mutable local variables of
`run_bfs_for_all_potential_target_nodes` (pathfinder.py:55-68): the
aggregated successful paths, the running minimum length, the winner
so far, and the driver's working copy of the obstacle list, which is
shared with (and mutated by) every `bfs_extended_3d` call of the
round. -/
structure DriverSt : Type where
  all_paths_from_round : List (Option (List Block))
  min_path_length : Option ℤ
  path_found : Bool
  length : Option ℤ
  path : Option (List Block)
  obstacle_coords : List Coord

/-- The `for potential_target_type in potential_target_types:` loop
(pathfinder.py:108-127): one `bfs_extended_3d` call per candidate
kind; on success the path is recorded and the round's winner updated
when strictly shorter than the running minimum. -/
def try_target_types (source_node : Block) (tentative_target_position : Coord)
    (hadamard_flag : Bool) (fuel : ℕ) :
    List Kind → DriverSt → Except Halt DriverSt
  | [], st => Except.ok st
  | potential_target_type :: rest, st =>
      match bfs_extended_3d source_node
          (tentative_target_position, potential_target_type)
          st.obstacle_coords hadamard_flag fuel with
      | (Except.error e, _) => Except.error e
      | (Except.ok (candidate_path_found, candidate_length, candidate_path), obst2) =>
          let st2 := { st with obstacle_coords := obst2 }
          let st3 :=
            if candidate_path_found then
              let withPath :=
                { st2 with
                  path_found := true,
                  all_paths_from_round := st2.all_paths_from_round ++ [candidate_path] }
              match st2.min_path_length with
              | none =>
                  { withPath with
                    min_path_length := some candidate_length,
                    length := some candidate_length,
                    path := candidate_path }
              | some m =>
                  if candidate_length < m then
                    { withPath with
                      min_path_length := some candidate_length,
                      length := some candidate_length,
                      path := candidate_path }
                  else withPath
            else st2
          try_target_types source_node tentative_target_position hadamard_flag fuel rest st3

/-- The body of one attempt of the
`for attempt in range(attempts_per_distance):` loop
(pathfinder.py:83-131): generate a tentative target position (a
`None` result skips the attempt, leaving the state unchanged),
normalise the override kind by Python truthiness (pathfinder.py:102),
enumerate the candidate kinds and try them all.  The
`found_path_at_current_distance` flag (pathfinder.py:130) is
initialised to `False` and never set, so the corresponding statement
has no effect. -/
def driver_attempt_step (source_node : Block) (target_node_zx_type : Kind)
    (min_x max_x min_y max_y min_z max_z : ℤ)
    (overwrite_target_coords : Option Coord)
    (overwrite_target_type : Option Kind)
    (hadamard_flag : Bool) (fuel : ℕ) (st : DriverSt) :
    Except Halt DriverSt :=
  match generate_tentative_target_position source_node
      min_x max_x min_y max_y min_z max_z st.obstacle_coords
      overwrite_target_coords with
  | none => Except.ok st
  | some tentative_target_position =>
      let normalised_overwrite_type : Option Kind :=
        match overwrite_target_type with
        | some k => if k.isEmpty then none else some k
        | none => none
      let potential_target_types :=
        generate_tentative_target_types target_node_zx_type
          normalised_overwrite_type
      try_target_types source_node tentative_target_position
        hadamard_flag fuel potential_target_types st

/-- The `for attempt in range(attempts_per_distance):` loop
(pathfinder.py:77-131): break on success or excessive distance
(pathfinder.py:80-81), otherwise run one attempt and continue with
its resulting state. -/
def driver_attempts (source_node : Block) (target_node_zx_type : Kind)
    (distance max_distance : ℤ)
    (min_x max_x min_y max_y min_z max_z : ℤ)
    (overwrite_target_coords : Option Coord)
    (overwrite_target_type : Option Kind)
    (hadamard_flag : Bool) (fuel : ℕ) :
    ℕ → DriverSt → Except Halt DriverSt
  | 0, st => Except.ok st
  | attempts + 1, st =>
      if distance > max_distance ∨ st.path_found then Except.ok st
      else
        match driver_attempt_step source_node target_node_zx_type
            min_x max_x min_y max_y min_z max_z overwrite_target_coords
            overwrite_target_type hadamard_flag fuel st with
        | Except.error e => Except.error e
        | Except.ok st2 =>
            driver_attempts source_node target_node_zx_type distance
              max_distance min_x max_x min_y max_y min_z max_z
              overwrite_target_coords overwrite_target_type hadamard_flag
              fuel attempts st2

/-- The value returned by the driver: (path found?, winner length,
winner path, all successful paths of the round). -/
abbrev DriverResult : Type :=
  Bool × Option ℤ × Option (List Block) × List (Option (List Block))

/-- Decidable equality of lists of optional paths, spelled out
because instance search fails to assemble it unaided. -/
instance : DecidableEq (List (Option (List Block))) := instDecidableEqList

/-- Decidable equality of the driver-result components. -/
instance : DecidableEq (Option (List Block) × List (Option (List Block))) :=
  instDecidableEqProd

/-- Decidable equality of the last three driver-result components. -/
instance : DecidableEq (Option ℤ × Option (List Block) × List (Option (List Block))) :=
  instDecidableEqProd

/-- Decidable equality of `DriverResult` values. -/
instance : DecidableEq DriverResult := instDecidableEqProd

/-- The workflow manager `run_bfs_for_all_potential_target_nodes`
(pathfinder.py:16-134): copy the occupied coordinates, drop the
source coordinate from the copy, compute the bounding box and run the
attempt loop. -/
def run_bfs_for_all_potential_target_nodes (source_node : Block)
    (target_node_zx_type : Kind) (distance max_distance : ℤ)
    (attempts_per_distance : ℕ)
    (overwrite_target_coords : Option Coord)
    (overwrite_target_type : Option Kind)
    (occupied_coords : List Coord) (hadamard_flag : Bool) (fuel : ℕ) :
    Except Halt DriverResult :=
  let start_coords := source_node.1
  let obstacle_coords := occupied_coords.erase start_coords
  let bounds := determine_grid_size start_coords
    (overwrite_target_coords.getD (0, 0, 0)) obstacle_coords 5
  let st0 : DriverSt :=
    { all_paths_from_round := []
      min_path_length := none
      path_found := false
      length := none
      path := none
      obstacle_coords := obstacle_coords }
  match driver_attempts source_node target_node_zx_type distance max_distance
      bounds.1 bounds.2.1 bounds.2.2.1 bounds.2.2.2.1 bounds.2.2.2.2.1
      bounds.2.2.2.2.2 overwrite_target_coords overwrite_target_type
      hadamard_flag fuel attempts_per_distance st0 with
  | Except.error e => Except.error e
  | Except.ok st =>
      Except.ok (st.path_found, st.length, st.path, st.all_paths_from_round)



/-- The number of axes on which two coordinates differ. -/
def diffAxes (s t : Coord) : ℕ :=
  (if s.1 = t.1 then 0 else 1) + (if s.2.1 = t.2.1 then 0 else 1) +
    (if s.2.2 = t.2.2 then 0 else 1)

/-- Invariant of the search dictionaries: whenever a state has both a
recorded length and a recorded back-pointer path, the length counts
the edges of that path. -/
def BfsMapsInv (st : BfsSt) : Prop :=
  ∀ (b : Block) (l : ℤ) (pth : List Block),
    st.plen b = some l → st.pmap b = some pth → l + 1 = (pth.length : ℤ)

/-- Invariant of the driver state: before any success everything is
empty; after a success the recorded winner is a success path of the
round, its length counts its edges, and it is no longer than any
recorded successful path. -/
def DriverInv (st : DriverSt) : Prop :=
  (st.path_found = false →
    st.all_paths_from_round = [] ∧ st.min_path_length = none ∧
      st.length = none ∧ st.path = none) ∧
  (st.path_found = true →
    ∃ p L, st.path = some p ∧ st.length = some L ∧
      st.min_path_length = some L ∧ some p ∈ st.all_paths_from_round ∧
      L + 1 = (p.length : ℤ) ∧
      ∀ q ∈ st.all_paths_from_round,
        ∃ q', q = some q' ∧ L + 1 ≤ (q'.length : ℤ))

/-
Theorems.  Each claim of the specification is settled by exactly one
theorem below; helper lemmas carry no claim names.
-/

theorem oracle_example_matches_python :
    get_valid_next_kinds (-1, 0, 0) (kd "oxz") (-3, 0, 0) =
      some [kd "xxz", kd "zxz"] := by decide

/-- C1: the claim states that `bfs_extended_3d` never raises and that
querying the type-compatibility oracle during expansion completes
normally.  The code contradicts this: the call at
pathfinder.py:252-254 passes a `hadamard_flag` keyword argument that
the oracle's signature (constraints.py:75) does not accept, so the
very first expansion raises `TypeError`.  This theorem evaluates the
embedded code at a concrete failing input (the spec's own scenario 1,
an obstacle-free reachable pair). -/
theorem claim_C1_first_expansion_raises_type_error :
    (bfs_extended_3d ((0, 0, 0), kd "xxz") ((3, 0, 0), kd "ooo") [] false 10).1 =
      Except.error Halt.typeError := by decide

/-- C2: the claim states that for an obstacle-free reachable pair the
search returns success with the shortest legal path length.  At the
concrete obstacle-free input below the embedded code instead raises
`TypeError` at the first oracle query (same root cause as C1), so no
path is ever returned. -/
theorem claim_C2_reachable_pair_raises_instead_of_returning_path :
    (bfs_extended_3d ((0, 0, 0), kd "xxz") ((0, 3, 0), kd "ooo") [] false 8).1 =
      Except.error Halt.typeError := by decide

/-- Swapping the two coordinates leaves the displacement-axis index
unchanged, since a componentwise difference is nonzero exactly when
the opposite difference is. -/
theorem axisIdx_symm (s t : Coord) : axisIdx s t = axisIdx t s := by
  have h1 : (t.1 - s.1 ≠ 0) ↔ (s.1 - t.1 ≠ 0) := by omega
  have h2 : (t.2.1 - s.2.1 ≠ 0) ↔ (s.2.1 - t.2.1 ≠ 0) := by omega
  have h3 : (t.2.2 - s.2.2 ≠ 0) ↔ (s.2.2 - t.2.2 ≠ 0) := by omega
  simp only [axisIdx, h1, h2, h3]

/-- C9: for any two coordinates differing along exactly one axis and
any two kinds, the face-match check is symmetric in its two
(coordinate, kind) arguments. -/
theorem claim_C9_face_match_symmetric (a b : Coord) (kindA kindB : Kind)
    (haxes : diffAxes a b = 1) :
    check_face_match a kindA b kindB = check_face_match b kindB a kindA := by
  unfold check_face_match
  rw [axisIdx_symm]
  cases axisIdx b a with
  | none => rfl
  | some idx =>
      simp only []
      exact congrArg some (decide_eq_decide.mpr eq_comm)

/-- Witness for C9 at a concrete pair of coordinates and kinds. -/
theorem claim_C9_witness :
    diffAxes (0, 0, 0) (2, 0, 0) = 1 ∧
    check_face_match (0, 0, 0) (kd "xxz") (2, 0, 0) (kd "xzo") =
      check_face_match (2, 0, 0) (kd "xzo") (0, 0, 0) (kd "xxz") :=
  ⟨by decide, claim_C9_face_match_symmetric _ _ _ _ (by decide)⟩

/-- C6: `generate_tentative_target_types` returns a singleton with
exactly the override kind whenever one is supplied (a kind is a
non-empty string; the supplied override is what Python's truthiness
test accepts), the fixed families of sizes 3, 3, 1, 6 and 6 for the
five known ZX types, and a singleton with the literal input for any
ZX type outside that closed set. -/
theorem claim_C6_target_type_enumeration (zx k : Kind) :
    (k.isEmpty = false → generate_tentative_target_types zx (some k) = [k]) ∧
    (generate_tentative_target_types (kd "X") none).length = 3 ∧
    (generate_tentative_target_types (kd "Z") none).length = 3 ∧
    (generate_tentative_target_types (kd "O") none).length = 1 ∧
    (generate_tentative_target_types (kd "SIMPLE") none).length = 6 ∧
    (generate_tentative_target_types (kd "HADAMARD") none).length = 6 ∧
    (zx ∉ [kd "X", kd "Z", kd "O", kd "SIMPLE", kd "HADAMARD"] →
      generate_tentative_target_types zx none = [zx]) := by
  refine ⟨?_, by decide, by decide, by decide, by decide, by decide, ?_⟩
  · intro hk
    simp [generate_tentative_target_types, hk]
  · intro hzx
    simp only [List.mem_cons, List.not_mem_nil, or_false, not_or] at hzx
    obtain ⟨h1, h2, h3, h4, h5⟩ := hzx
    simp [generate_tentative_target_types, h1, h2, h3, h4, h5]

/-- Witness for C6: an override kind short-circuits, and an unknown
ZX type is echoed back as a singleton. -/
theorem claim_C6_witness :
    (kd "xxz").isEmpty = false ∧
    (kd "W") ∉ [kd "X", kd "Z", kd "O", kd "SIMPLE", kd "HADAMARD"] ∧
    generate_tentative_target_types (kd "W") (some (kd "xxz")) = [kd "xxz"] ∧
    generate_tentative_target_types (kd "W") none = [kd "W"] :=
  ⟨by decide, by decide,
    (claim_C6_target_type_enumeration (kd "W") (kd "xxz")).1 (by decide),
    (claim_C6_target_type_enumeration (kd "W") (kd "xxz")).2.2.2.2.2.2 (by decide)⟩

/-- The number of occurrences of a value can only go down when some
element is erased from a list. -/
theorem count_erase_le (a b : Coord) (l : List Coord) :
    (l.erase b).count a ≤ l.count a := by
  by_cases hab : a = b
  · subst hab
    rw [List.count_erase_self]
    omega
  · rw [List.count_erase_of_ne hab]

/-- C10: `bfs_extended_3d` removes the first occurrence of the source
coordinate and then the first occurrence of the target coordinate
from the obstacle list it is given (pathfinder.py:168-171), and this
is the list state visible to the caller after the call returns; in
particular when a coordinate occurred at most once it is absent — a
subsequent search sharing the list observes it as free. -/
theorem claim_C10_obstacle_list_mutation (source_node target_node : Block)
    (forbidden_cords : List Coord) (hadamard_flag : Bool) (fuel : ℕ) :
    (bfs_extended_3d source_node target_node forbidden_cords hadamard_flag fuel).2 =
      (forbidden_cords.erase source_node.1).erase target_node.1 ∧
    (forbidden_cords.count source_node.1 ≤ 1 →
      source_node.1 ∉
        (bfs_extended_3d source_node target_node forbidden_cords hadamard_flag fuel).2) ∧
    (forbidden_cords.count target_node.1 ≤ 1 →
      target_node.1 ∉
        (bfs_extended_3d source_node target_node forbidden_cords hadamard_flag fuel).2) := by
  refine ⟨rfl, ?_, ?_⟩
  · intro hcount
    show source_node.1 ∉ (forbidden_cords.erase source_node.1).erase target_node.1
    rw [← List.count_eq_zero]
    have h1 := List.count_erase_self source_node.1 forbidden_cords
    have h2 := count_erase_le source_node.1 target_node.1
      (forbidden_cords.erase source_node.1)
    omega
  · intro hcount
    show target_node.1 ∉ (forbidden_cords.erase source_node.1).erase target_node.1
    rw [← List.count_eq_zero]
    have h1 := List.count_erase_self target_node.1
      (forbidden_cords.erase source_node.1)
    have h2 := count_erase_le target_node.1 source_node.1 forbidden_cords
    omega

/-- Witness for C10 at a concrete call whose obstacle list contains
both endpoints once. -/
theorem claim_C10_witness :
    (bfs_extended_3d ((0, 0, 0), kd "xxz") ((1, 0, 0), kd "ooo")
        [(0, 0, 0), (1, 0, 0), (5, 5, 5)] false 3).2 =
      (([(0, 0, 0), (1, 0, 0), (5, 5, 5)] : List Coord).erase (0, 0, 0)).erase (1, 0, 0) ∧
    ((0, 0, 0) : Coord) ∉
      (bfs_extended_3d ((0, 0, 0), kd "xxz") ((1, 0, 0), kd "ooo")
        [(0, 0, 0), (1, 0, 0), (5, 5, 5)] false 3).2 ∧
    ((1, 0, 0) : Coord) ∉
      (bfs_extended_3d ((0, 0, 0), kd "xxz") ((1, 0, 0), kd "ooo")
        [(0, 0, 0), (1, 0, 0), (5, 5, 5)] false 3).2 :=
  ⟨(claim_C10_obstacle_list_mutation _ _ _ _ _).1,
    (claim_C10_obstacle_list_mutation _ _ _ _ _).2.1 (by decide),
    (claim_C10_obstacle_list_mutation _ _ _ _ _).2.2 (by decide)⟩

/-- Two successive filters collapse to one filter testing both
predicates, keeping the underlying enumeration order. -/
theorem filter_then_filter (p q : Kind → Bool) (l : List Kind) :
    (l.filter p).filter q = l.filter (fun a => p a && q a) := by
  induction l with
  | nil => rfl
  | cons a t ih =>
      by_cases hp : p a <;> by_cases hq : q a <;>
        simp [List.filter_cons, hp, hq, ih]

/-- No cube kind carries the open marker. -/
theorem all_cube_kinds_no_open : ∀ k ∈ all_cube_kinds, k.contains 'o' = false := by
  decide

/-- Every pipe kind carries the open marker. -/
theorem all_pipe_kinds_open : ∀ k ∈ all_pipe_kinds, k.contains 'o' = true := by
  decide

/-- C4: when the two positions differ on some axis (as any position
and its neighbour do), the oracle returns exactly the members of the
appropriate fixed kind family — cube kinds after a pipe, pipe kinds
after a cube — that pass both the exit-match and the face-match
check, in the family's fixed enumeration order; consequently every
returned kind is a cube kind (no open marker) when the current kind
contains the open marker, and a pipe kind (with the open marker)
otherwise. -/
theorem claim_C4_oracle_enumeration (current_pos next_pos : Coord)
    (current_kind : Kind) (i : ℕ)
    (haxis : axisIdx current_pos next_pos = some i) :
    ∃ ks, get_valid_next_kinds current_pos current_kind next_pos = some ks ∧
      ks = (if current_kind.contains 'o' then all_cube_kinds
            else all_pipe_kinds).filter
        (fun nk =>
          (check_cube_match current_pos current_kind next_pos nk).getD false &&
          (check_face_match current_pos current_kind next_pos nk).getD false) ∧
      (current_kind.contains 'o' = true →
        ∀ k ∈ ks, k ∈ all_cube_kinds ∧ k.contains 'o' = false) ∧
      (current_kind.contains 'o' = false →
        ∀ k ∈ ks, k ∈ all_pipe_kinds ∧ k.contains 'o' = true) := by
  have hval : get_valid_next_kinds current_pos current_kind next_pos =
      some (((if current_kind.contains 'o' then all_cube_kinds
              else all_pipe_kinds).filter
        (fun nk =>
          (check_cube_match current_pos current_kind next_pos nk).getD false)).filter
        (fun nk =>
          (check_face_match current_pos current_kind next_pos nk).getD false)) := by
    unfold get_valid_next_kinds
    rw [haxis]
  refine ⟨_, hval, filter_then_filter _ _ _, ?_, ?_⟩
  · intro ho k hk
    have hmem : k ∈ (if current_kind.contains 'o' then all_cube_kinds
        else all_pipe_kinds) :=
      (List.mem_filter.1 ((List.mem_filter.1 hk).1)).1
    simp only [ho, if_true] at hmem
    exact ⟨hmem, all_cube_kinds_no_open k hmem⟩
  · intro ho k hk
    have hmem : k ∈ (if current_kind.contains 'o' then all_cube_kinds
        else all_pipe_kinds) :=
      (List.mem_filter.1 ((List.mem_filter.1 hk).1)).1
    simp only [ho, Bool.false_eq_true, if_false] at hmem
    exact ⟨hmem, all_pipe_kinds_open k hmem⟩

/-- Witness for C4 at the concrete query from the module's own main
block (a pipe at (-1,0,0) expanding toward (-3,0,0)). -/
theorem claim_C4_witness :
    axisIdx (-1, 0, 0) (-3, 0, 0) = some 0 ∧
    ∃ ks, get_valid_next_kinds (-1, 0, 0) (kd "oxz") (-3, 0, 0) = some ks ∧
      ks = (if (kd "oxz").contains 'o' then all_cube_kinds
            else all_pipe_kinds).filter
        (fun nk =>
          (check_cube_match (-1, 0, 0) (kd "oxz") (-3, 0, 0) nk).getD false &&
          (check_face_match (-1, 0, 0) (kd "oxz") (-3, 0, 0) nk).getD false) ∧
      ((kd "oxz").contains 'o' = true →
        ∀ k ∈ ks, k ∈ all_cube_kinds ∧ k.contains 'o' = false) ∧
      ((kd "oxz").contains 'o' = false →
        ∀ k ∈ ks, k ∈ all_pipe_kinds ∧ k.contains 'o' = true) :=
  ⟨by decide, claim_C4_oracle_enumeration (-1, 0, 0) (-3, 0, 0) (kd "oxz") 0 (by decide)⟩

/-- C3: whenever the search loop dequeues a state whose Manhattan
distance to the target coordinate exceeds six times the initial
Manhattan distance, the entire search returns the failure triple
(False, -1, None) at once — whatever else is still on the queue and
whatever the dictionaries hold, so this is a global abort, not a
per-branch prune (pathfinder.py:189-192). -/
theorem claim_C3_global_distance_abort (src : Block) (endC : Coord)
    (endT : Kind) (forb : List Coord) (initMd : ℤ) (fuel : ℕ) (st : BfsSt)
    (cur : Block) (rest : List Block)
    (hq : st.queue = cur :: rest)
    (hdist : manhattan cur.1 endC > 6 * initMd)
    (hfuel : 1 ≤ fuel) :
    bfs_loop src endC endT forb initMd fuel st = Except.ok (false, -1, none) := by
  obtain ⟨n, rfl⟩ : ∃ n, fuel = n + 1 := ⟨fuel - 1, by omega⟩
  unfold bfs_loop
  rw [hq]
  simp only [hdist, if_pos]

/-- Witness for C3: a dequeued state at distance 7 against an initial
distance of 1 aborts the whole search even though more states remain
queued. -/
theorem claim_C3_witness :
    manhattan ((7, 0, 0) : Coord) (0, 0, 0) > 6 * 1 ∧
    bfs_loop ((0, 0, 0), kd "xxz") (0, 0, 0) (kd "ooo") [] 1 3
      { queue := [((7, 0, 0), kd "xxz"), ((1, 0, 0), kd "zxo")]
        visited := fun _ => none
        plen := fun _ => none
        pmap := fun _ => none
        hf := false } = Except.ok (false, -1, none) :=
  ⟨by decide,
    claim_C3_global_distance_abort _ _ _ _ _ _ _ _ _ rfl (by decide) (by decide)⟩

/-- C5 counterexample: source and target share the coordinate
(0, 0, 0) but carry different kinds and the target kind is not the
wildcard marker, so the goal test at the first dequeue fails and the
search proceeds to expansion, which raises `TypeError` at the oracle
call instead of returning the claimed immediate success. -/
theorem claim_C5_counterexample :
    (bfs_extended_3d ((0, 0, 0), kd "xxz") ((0, 0, 0), kd "zzx") [] false 8).1 =
      Except.error Halt.typeError := by decide

/-- C5 (amended): for every source and target block with the identical
coordinate such that the target kind is the wildcard boundary marker
or equals the source kind, the search succeeds immediately with
length 0 and the single-block path. -/
theorem claim_C5_identical_coordinate_success (sc : Coord) (sk ek : Kind)
    (forb : List Coord) (hflag : Bool) (fuel : ℕ)
    (hfuel : 1 ≤ fuel) (hkind : ek = kd "ooo" ∨ sk = ek) :
    (bfs_extended_3d (sc, sk) (sc, ek) forb hflag fuel).1 =
      Except.ok (true, 0, some [(sc, sk)]) := by
  obtain ⟨n, rfl⟩ : ∃ n, fuel = n + 1 := ⟨fuel - 1, by omega⟩
  have hmd : manhattan sc sc = 0 := by simp [manhattan]
  unfold bfs_extended_3d bfs_loop
  simp [hmd, hkind]

/-- Witness for C5 (amended) at a concrete identical-coordinate pair
with a wildcard target kind. -/
theorem claim_C5_witness :
    (1 : ℕ) ≤ 3 ∧ ((kd "ooo" : Kind) = kd "ooo" ∨ (kd "xzx" : Kind) = kd "ooo") ∧
    (bfs_extended_3d ((2, 3, 4), kd "xzx") ((2, 3, 4), kd "ooo")
        [(2, 3, 4)] true 3).1 = Except.ok (true, 0, some [((2, 3, 4), kd "xzx")]) :=
  ⟨by decide, Or.inl rfl,
    claim_C5_identical_coordinate_success _ _ _ _ _ _ (by decide) (Or.inl rfl)⟩

/-- C7 counterexample: the target coordinate (1,0,0) occurs twice in
the obstacle list of the first run and not at all in the second; the
two runs do not yield identical results (the first returns the
failure triple because every pipe expansion is blocked by the
surviving occurrence, the second reaches the oracle call), so the
claim fails for obstacle lists that repeat an endpoint. -/
theorem claim_C7_counterexample :
    (bfs_extended_3d ((0, 0, 0), kd "oxz") ((1, 0, 0), kd "xxz")
        [(1, 0, 0), (1, 0, 0), (-1, 0, 0), (0, 1, 0), (0, -1, 0), (0, 0, 1), (0, 0, -1)]
        false 5).1 ≠
    (bfs_extended_3d ((0, 0, 0), kd "oxz") ((1, 0, 0), kd "xxz")
        [(-1, 0, 0), (0, 1, 0), (0, -1, 0), (0, 0, 1), (0, 0, -1)]
        false 5).1 := by decide

/-- Erasing one occurrence of a coordinate that appears at most once
before the search's own two erasures leaves the searched list
unchanged, for either endpoint. -/
theorem erase_erase_of_count_le_one (l : List Coord) (c sc ec : Coord)
    (hc : c = sc ∨ c = ec) (hcount : l.count c ≤ 1) :
    ((l.erase c).erase sc).erase ec = (l.erase sc).erase ec := by
  rcases hc with rfl | rfl
  · have hnot : c ∉ l.erase c := by
      rw [← List.count_eq_zero]
      have := List.count_erase_self c l
      omega
    rw [List.erase_of_not_mem hnot]
  · rw [List.erase_comm c sc l]
    have hnot : c ∉ (l.erase sc).erase c := by
      rw [← List.count_eq_zero]
      have h1 := List.count_erase_self c (l.erase sc)
      have h2 := count_erase_le c sc l
      omega
    rw [List.erase_of_not_mem hnot]

/-- C7 (amended): provided the coordinate occurs at most once in the
obstacle list (obstacle sets have no duplicates), running
`bfs_extended_3d` with the source or target coordinate present in the
list gives a result identical to running it with that coordinate
erased: the endpoints are implicitly excluded at the start of every
call. -/
theorem claim_C7_endpoint_obstacles_irrelevant (source_node target_node : Block)
    (l : List Coord) (hflag : Bool) (fuel : ℕ) (c : Coord)
    (hc : c = source_node.1 ∨ c = target_node.1)
    (hcount : l.count c ≤ 1) :
    bfs_extended_3d source_node target_node l hflag fuel =
      bfs_extended_3d source_node target_node (l.erase c) hflag fuel := by
  have key := erase_erase_of_count_le_one l c source_node.1 target_node.1 hc hcount
  simp only [bfs_extended_3d]
  rw [key]

/-- Witness for C7 (amended): the source coordinate sits once in the
obstacle list and erasing it changes nothing in the outcome. -/
theorem claim_C7_witness :
    (([(0, 0, 0), (9, 9, 9)] : List Coord).count ((0, 0, 0) : Coord) ≤ 1) ∧
    bfs_extended_3d ((0, 0, 0), kd "xxz") ((3, 0, 0), kd "ooo")
        [(0, 0, 0), (9, 9, 9)] false 4 =
      bfs_extended_3d ((0, 0, 0), kd "xxz") ((3, 0, 0), kd "ooo")
        (([(0, 0, 0), (9, 9, 9)] : List Coord).erase (0, 0, 0)) false 4 :=
  ⟨by decide,
    claim_C7_endpoint_obstacles_irrelevant _ _ _ _ _ _ (Or.inl rfl) (by decide)⟩

/-- When the per-move expansion returns normally it leaves the search
state untouched: every move either skips via the intermediate-cell
check or reaches the oracle call, which raises. -/
theorem bfs_expand_ok (src cur : Block) (curPath : List Block) (scale : ℤ)
    (forb : List Coord) (ms : List (ℤ × ℤ × ℤ)) (ct : Kind) (st st' : BfsSt)
    (h : bfs_expand src cur curPath scale forb ms ct st = Except.ok st') :
    st' = st := by
  induction ms generalizing ct st with
  | nil =>
      unfold bfs_expand at h
      exact (Except.ok.inj h).symm
  | cons m ms ih =>
      obtain ⟨dx, dy, dz⟩ := m
      unfold bfs_expand at h
      simp only [call_get_valid_next_kinds_with_flag] at h
      repeat' split at h
      all_goals first
        | exact ih _ _ h
        | exact Except.noConfusion h

/-- If the search loop returns success, the reported length counts the
edges of the reported path (given the dictionary invariant). -/
theorem bfs_loop_found_length (src : Block) (endC : Coord) (endT : Kind)
    (forb : List Coord) (initMd : ℤ) :
    ∀ (fuel : ℕ) (st : BfsSt) (L : ℤ) (pOpt : Option (List Block)),
      BfsMapsInv st →
      bfs_loop src endC endT forb initMd fuel st = Except.ok (true, L, pOpt) →
      ∃ p, pOpt = some p ∧ L + 1 = (p.length : ℤ) := by
  intro fuel
  induction fuel with
  | zero =>
      intro st L pOpt hinv h
      exact Except.noConfusion h
  | succ n ih =>
      intro st L pOpt hinv h
      unfold bfs_loop at h
      split at h
      · exact absurd (Except.ok.inj h) (by simp)
      · rename_i cur rest hq
        split at h
        · exact absurd (Except.ok.inj h) (by simp)
        · split at h
          · split at h
            · rename_i l' pth h1 h2
              simp only [Except.ok.injEq, Prod.mk.injEq, true_and] at h
              obtain ⟨hL, hp⟩ := h
              refine ⟨pth, hp.symm, ?_⟩
              have := hinv cur l' pth h1 h2
              omega
            · exact Except.noConfusion h
          · split at h
            · exact Except.noConfusion h
            · rename_i curPath hpm
              split at h
              all_goals
                simp only [] at h
                split at h
                · exact Except.noConfusion h
                · rename_i st2 hexp
                  have hst2 := bfs_expand_ok _ _ _ _ _ _ _ _ _ hexp
                  subst hst2
                  refine ih _ L pOpt ?_ h
                  exact fun b lb pb hb1 hb2 => hinv b lb pb hb1 hb2

/-- A successful `bfs_extended_3d` call reports a length that counts
the edges of its reported path. -/
theorem bfs_found_length (src tgt : Block) (l : List Coord) (hflag : Bool)
    (fuel : ℕ) (L : ℤ) (pOpt : Option (List Block))
    (h : (bfs_extended_3d src tgt l hflag fuel).1 = Except.ok (true, L, pOpt)) :
    ∃ p, pOpt = some p ∧ L + 1 = (p.length : ℤ) := by
  refine bfs_loop_found_length src tgt.1 tgt.2 ((l.erase src.1).erase tgt.1)
    (manhattan src.1 tgt.1) fuel
    { queue := [src]
      visited := fun b => if b = src then some 0 else none
      plen := fun b => if b = src then some 0 else none
      pmap := fun b => if b = src then some [src] else none
      hf := hflag } L pOpt ?_ h
  intro b lb pb hb1 hb2
  simp only [] at hb1 hb2
  by_cases hb : b = src
  · rw [if_pos hb] at hb1 hb2
    obtain rfl := Option.some.inj hb1
    obtain rfl := Option.some.inj hb2
    rfl
  · rw [if_neg hb] at hb1
    exact Option.noConfusion hb1

/-- One step of the candidate-kind loop preserves the driver
invariant. -/
theorem try_target_types_inv (source_node : Block) (tpos : Coord)
    (hflag : Bool) (fuel : ℕ) :
    ∀ (ks : List Kind) (st st' : DriverSt),
      DriverInv st →
      try_target_types source_node tpos hflag fuel ks st = Except.ok st' →
      DriverInv st' := by
  intro ks
  induction ks with
  | nil =>
      intro st st' hinv h
      unfold try_target_types at h
      obtain rfl := Except.ok.inj h
      exact hinv
  | cons tk ks ih =>
      intro st st' hinv h
      unfold try_target_types at h
      rcases hbfs : bfs_extended_3d source_node (tpos, tk) st.obstacle_coords
          hflag fuel with ⟨res, obst2⟩
      rw [hbfs] at h
      rcases res with e | ⟨found, len, pOpt⟩
      · exact Except.noConfusion h
      · rcases found with _ | _
        · -- candidate_path_found = false: only the obstacle list changes
          simp only [Bool.false_eq_true, if_false] at h
          refine ih _ _ ?_ h
          exact ⟨fun hf => hinv.1 hf, fun hf => hinv.2 hf⟩
        · -- candidate_path_found = true
          have hlen : ∃ p, pOpt = some p ∧ len + 1 = (p.length : ℤ) := by
            refine bfs_found_length source_node (tpos, tk) st.obstacle_coords
              hflag fuel len pOpt ?_
            rw [hbfs]
          obtain ⟨p, rfl, hplen⟩ := hlen
          simp only [if_true] at h
          cases hmin : st.min_path_length with
          | none =>
              have hpf : st.path_found = false := by
                cases hpf2 : st.path_found
                · rfl
                · obtain ⟨p0, L0, -, -, hmin0, -⟩ := hinv.2 hpf2
                  rw [hmin] at hmin0
                  exact Option.noConfusion hmin0
              obtain ⟨hall, -, -, -⟩ := hinv.1 hpf
              rw [hmin] at h
              refine ih _ _ ?_ h
              constructor
              · intro hcontr
                exact Bool.noConfusion hcontr
              · intro _
                refine ⟨p, len, rfl, rfl, rfl, ?_, hplen, ?_⟩
                · show some p ∈ st.all_paths_from_round ++ [some p]
                  rw [hall]
                  exact List.mem_singleton.mpr rfl
                · intro q hq
                  show ∃ q', q = some q' ∧ len + 1 ≤ (q'.length : ℤ)
                  rw [hall] at hq
                  simp only [List.nil_append, List.mem_singleton] at hq
                  exact ⟨p, hq, le_of_eq hplen⟩
          | some m =>
              have hpf : st.path_found = true := by
                cases hpf2 : st.path_found
                · have hmn := (hinv.1 hpf2).2.1
                  rw [hmin] at hmn
                  exact Option.noConfusion hmn
                · rfl
              obtain ⟨p0, L0, hpath0, hlen0, hmin0, hmem0, hplen0, hbound0⟩ :=
                hinv.2 hpf
              have hm : m = L0 := by
                rw [hmin] at hmin0
                exact Option.some.inj hmin0
              subst hm
              rw [hmin] at h
              simp only [] at h
              by_cases hlt : len < m
              · rw [if_pos hlt] at h
                refine ih _ _ ?_ h
                constructor
                · intro hcontr
                  exact Bool.noConfusion hcontr
                · intro _
                  refine ⟨p, len, rfl, rfl, rfl, ?_, hplen, ?_⟩
                  · exact List.mem_append_right _ (List.mem_singleton.mpr rfl)
                  · intro q hq
                    rcases List.mem_append.1 hq with hq1 | hq2
                    · obtain ⟨q', rfl, hb⟩ := hbound0 q hq1
                      exact ⟨q', rfl, by omega⟩
                    · obtain rfl := List.mem_singleton.mp hq2
                      exact ⟨p, rfl, le_of_eq hplen⟩
              · rw [if_neg hlt] at h
                refine ih _ _ ?_ h
                constructor
                · intro hcontr
                  exact Bool.noConfusion hcontr
                · intro _
                  refine ⟨p0, m, hpath0, hlen0, rfl, ?_, hplen0, ?_⟩
                  · exact List.mem_append_left _ hmem0
                  · intro q hq
                    rcases List.mem_append.1 hq with hq1 | hq2
                    · exact hbound0 q hq1
                    · obtain rfl := List.mem_singleton.mp hq2
                      exact ⟨p, rfl, by omega⟩

/-- The attempt loop preserves the driver invariant. -/
theorem driver_attempts_inv (source_node : Block) (zx : Kind)
    (distance max_distance min_x max_x min_y max_y min_z max_z : ℤ)
    (ovC : Option Coord) (ovT : Option Kind) (hflag : Bool) (fuel : ℕ) :
    ∀ (n : ℕ) (st st' : DriverSt),
      DriverInv st →
      driver_attempts source_node zx distance max_distance
        min_x max_x min_y max_y min_z max_z ovC ovT hflag fuel n st =
          Except.ok st' →
      DriverInv st' := by
  intro n
  induction n with
  | zero =>
      intro st st' hinv h
      unfold driver_attempts at h
      obtain rfl := Except.ok.inj h
      exact hinv
  | succ n ih =>
      intro st st' hinv h
      unfold driver_attempts at h
      split at h
      · obtain rfl := Except.ok.inj h
        exact hinv
      · split at h
        · exact Except.noConfusion h
        · rename_i st2 hstep
          refine ih _ _ ?_ h
          unfold driver_attempt_step at hstep
          split at hstep
          · obtain rfl := Except.ok.inj hstep
            exact hinv
          · exact try_target_types_inv _ _ _ _ _ _ _ hinv hstep

/-- C8: whenever the driver returns normally with a success flag, the
reported path is a member of the aggregated list of all successful
paths of the round, the reported length counts that path's edges, and
no successful path recorded in the round is shorter — the driver
reports a shortest path among all successful individual search
results. -/
theorem claim_C8_driver_reports_round_minimum (source_node : Block)
    (zx : Kind) (distance max_distance : ℤ) (attempts : ℕ)
    (ovC : Option Coord) (ovT : Option Kind) (occupied : List Coord)
    (hflag : Bool) (fuel : ℕ) (lenOpt : Option ℤ)
    (pathOpt : Option (List Block)) (all : List (Option (List Block)))
    (h : run_bfs_for_all_potential_target_nodes source_node zx distance
      max_distance attempts ovC ovT occupied hflag fuel =
        Except.ok (true, lenOpt, pathOpt, all)) :
    ∃ p L, pathOpt = some p ∧ lenOpt = some L ∧ some p ∈ all ∧
      L + 1 = (p.length : ℤ) ∧
      ∀ q ∈ all, ∃ q', q = some q' ∧ L + 1 ≤ (q'.length : ℤ) := by
  unfold run_bfs_for_all_potential_target_nodes at h
  simp only [] at h
  split at h
  · exact Except.noConfusion h
  · rename_i st hda
    have hinv0 : DriverInv
        { all_paths_from_round := []
          min_path_length := none
          path_found := false
          length := none
          path := none
          obstacle_coords := occupied.erase source_node.1 } :=
      ⟨fun _ => ⟨rfl, rfl, rfl, rfl⟩, fun hcontr => Bool.noConfusion hcontr⟩
    have hinv := driver_attempts_inv _ _ _ _ _ _ _ _ _ _ _ _ _ _ _ _ _ hinv0 hda
    have hok := Except.ok.inj h
    simp only [Prod.mk.injEq] at hok
    obtain ⟨hpf, hlen, hpath, hall⟩ := hok
    subst hlen
    subst hpath
    subst hall
    obtain ⟨p, L, hp1, hp2, -, hp4, hp5, hp6⟩ := hinv.2 hpf
    exact ⟨p, L, hp1, hp2, hp4, hp5, hp6⟩

/-- Witness for C8 at a concrete driver run with an override target
identical to the source block, which succeeds immediately. -/
theorem claim_C8_witness :
    run_bfs_for_all_potential_target_nodes ((0, 0, 0), kd "xxz") (kd "X")
        1 30 1 (some (0, 0, 0)) (some (kd "xxz")) [] false 4 =
      Except.ok (true, some 0, some [((0, 0, 0), kd "xxz")],
        [some [((0, 0, 0), kd "xxz")]]) ∧
    (∃ p L, (some [((0, 0, 0), kd "xxz")] : Option (List Block)) = some p ∧
      (some 0 : Option ℤ) = some L ∧
      some p ∈ ([some [((0, 0, 0), kd "xxz")]] : List (Option (List Block))) ∧
      L + 1 = (p.length : ℤ) ∧
      ∀ q ∈ ([some [((0, 0, 0), kd "xxz")]] : List (Option (List Block))),
        ∃ q', q = some q' ∧ L + 1 ≤ (q'.length : ℤ)) :=
  ⟨by decide,
    claim_C8_driver_reports_round_minimum ((0, 0, 0), kd "xxz") (kd "X")
      1 30 1 (some (0, 0, 0)) (some (kd "xxz")) [] false 4
      (some 0) (some [((0, 0, 0), kd "xxz")]) [some [((0, 0, 0), kd "xxz")]]
      (by decide)⟩
